import Mathlib

/-!
Shallow embedding of the currency quote aggregation server (`src/server.js`).

Modelling choices:
* JavaScript numbers are modelled by `JsNum`: a finite rational, `NaN`,
  `+Infinity` or `-Infinity`.  All prices produced by providers are finite,
  so `Quote` carries plain rationals; the statistics functions, which can
  divide by zero exactly as the JavaScript code does, return `JsNum`s.
  (Rationals stand in for IEEE doubles; the claims under scrutiny concern
  the algebraic structure of the computations, not rounding of doubles.
  `ℚ` has no negative zero, so the sign of a zero quotient is not tracked.)
* Time is a rational number of milliseconds, matching `Date` subtraction
  in `getCachedData`; the SQLite timestamp stored by `setCache` is the
  current time of the request performing the `put`.
* The SQLite cache table (one row per currency, `currency` is UNIQUE and
  `INSERT OR REPLACE` is used) is modelled as a map from currency to an
  optional row.  `JSON.stringify`/`JSON.parse` round-tripping of the
  bundle is modelled as the identity on the bundle structure.
* The nondeterminism of the simulated scrapers (`Math.random()`) is
  modelled by an environment `env : String → ℚ × ℚ` giving the pair each
  scraper returns on this run, keyed by the provider name.
* The fire-and-forget `db.run` INSERT of each quote is a write-only sink
  the core never reads back; it is not part of the state modelled here.
-/

/-- A JavaScript number: finite value, NaN, or a signed infinity. -/
inductive JsNum where
  | num (q : ℚ)
  | nan
  | inf
  | negInf
deriving DecidableEq, Repr

namespace JsNum

/-- JavaScript subtraction `a - b` restricted to the cases arising here. -/
def sub (a b : JsNum) : JsNum :=
  match a, b with
  | nan, _ => nan
  | _, nan => nan
  | num x, num y => num (x - y)
  | num _, inf => negInf
  | num _, negInf => inf
  | inf, num _ => inf
  | inf, inf => nan
  | inf, negInf => inf
  | negInf, num _ => negInf
  | negInf, inf => negInf
  | negInf, negInf => nan

/-- JavaScript division `a / b`: division by zero yields NaN (for `0/0`)
or a signed infinity, exactly as in IEEE arithmetic. -/
def div (a b : JsNum) : JsNum :=
  match a, b with
  | nan, _ => nan
  | _, nan => nan
  | num x, num y =>
      if y = 0 then
        if x = 0 then nan else if x > 0 then inf else negInf
      else num (x / y)
  | num _, inf => num 0
  | num _, negInf => num 0
  | inf, num y => if y ≥ 0 then inf else negInf
  | inf, inf => nan
  | inf, negInf => nan
  | negInf, num y => if y ≥ 0 then negInf else inf
  | negInf, inf => nan
  | negInf, negInf => nan

/-- JavaScript multiplication `a * b`. -/
def mul (a b : JsNum) : JsNum :=
  match a, b with
  | nan, _ => nan
  | _, nan => nan
  | num x, num y => num (x * y)
  | num x, inf => if x > 0 then inf else if x < 0 then negInf else nan
  | num x, negInf => if x > 0 then negInf else if x < 0 then inf else nan
  | inf, num y => if y > 0 then inf else if y < 0 then negInf else nan
  | inf, inf => inf
  | inf, negInf => negInf
  | negInf, num y => if y > 0 then negInf else if y < 0 then inf else nan
  | negInf, inf => negInf
  | negInf, negInf => inf

end JsNum

/-- One entry of the `SOURCES` registry: a provider name and its URL,
used as the quote's `source` key (`src/server.js` lines 44–55). -/
structure SourceDescriptor where
  name : String
  url : String
deriving DecidableEq, Repr

/-- A quote produced by one provider (`fetchQuotes` pushes
`{buy_price, sell_price, source}`). Provider outputs are finite numbers. -/
structure Quote where
  buy_price : ℚ
  sell_price : ℚ
  source : String
deriving DecidableEq, Repr

/-- Result of `calculateAverage`. -/
structure AveragePair where
  average_buy_price : JsNum
  average_sell_price : JsNum
deriving DecidableEq, Repr

/-- One entry of the result of `calculateSlippage`. -/
structure SlippageEntry where
  buy_price_slippage : JsNum
  sell_price_slippage : JsNum
  source : String
deriving DecidableEq, Repr

/-- The `SOURCES` registry (`src/server.js` lines 44–55); property lookup
on a JS object is `Option`-valued. -/
def SOURCES (currency : String) : Option (List SourceDescriptor) :=
  if currency = "ARS" then
    some [⟨"Ambito", "https://www.ambito.com/contenidos/dolar.html"⟩,
          ⟨"DolarHoy", "https://www.dolarhoy.com"⟩,
          ⟨"Cronista", "https://www.cronista.com/MercadosOnline/moneda.html?id=ARSB"⟩]
  else if currency = "BRL" then
    some [⟨"Wise", "https://wise.com/es/currency-converter/brl-to-usd-rate"⟩,
          ⟨"Nubank", "https://nubank.com.br/taxas-conversao/"⟩,
          ⟨"Nomad Global", "https://www.nomadglobal.com"⟩]
  else none

/-- The `switch (source.name)` dispatch in `fetchQuotes` (lines 172–191):
each known name calls its scraper (whose random output this run is
`env name`); an unknown name leaves the initial `{buy: 0, sell: 0}`. -/
def dispatchScrape (env : String → ℚ × ℚ) (name : String) : ℚ × ℚ :=
  match name with
  | "Ambito" => env name
  | "DolarHoy" => env name
  | "Cronista" => env name
  | "Wise" => env name
  | "Nubank" => env name
  | "Nomad Global" => env name
  | _ => (0, 0)

/-- `fetchQuotes` (lines 161–205): throws if the registry has no entry for
the currency, otherwise builds one quote per descriptor in registry
order, with `source` set to the descriptor's URL. -/
def fetchQuotes (env : String → ℚ × ℚ) (currency : String) :
    Except String (List Quote) :=
  match SOURCES currency with
  | none => Except.error ("Currency " ++ currency ++ " not supported")
  | some sources =>
      Except.ok (sources.map fun s =>
        let prices := dispatchScrape env s.name
        { buy_price := prices.1, sell_price := prices.2, source := s.url })

/-- `calculateAverage` (lines 309–319): a reduce summing both sides,
then division by the list length — with no emptiness guard, so an empty
list divides zero by zero. -/
def calculateAverage (quotes : List Quote) : AveragePair :=
  let sum := quotes.foldl
    (fun acc quote => (acc.1 + quote.buy_price, acc.2 + quote.sell_price))
    (0, 0)
  { average_buy_price := JsNum.div (JsNum.num sum.1) (JsNum.num quotes.length),
    average_sell_price := JsNum.div (JsNum.num sum.2) (JsNum.num quotes.length) }

/-- `calculateSlippage` (lines 321–332): a map over the quote list
computing `(price - average) / average * 100` on each side — with no
guard against a zero average component. -/
def calculateSlippage (quotes : List Quote) (average : AveragePair) :
    List SlippageEntry :=
  quotes.map fun quote =>
    { buy_price_slippage :=
        JsNum.mul
          (JsNum.div (JsNum.sub (JsNum.num quote.buy_price) average.average_buy_price)
            average.average_buy_price)
          (JsNum.num 100),
      sell_price_slippage :=
        JsNum.mul
          (JsNum.div (JsNum.sub (JsNum.num quote.sell_price) average.average_sell_price)
            average.average_sell_price)
          (JsNum.num 100),
      source := quote.source }

/-- The `{quotes, average, slippage}` bundle cached by the handlers. -/
structure Bundle where
  quotes : List Quote
  average : AveragePair
  slippage : List SlippageEntry
deriving DecidableEq, Repr

/-- One row of the `cache` table: the bundle and its stored timestamp
(milliseconds). -/
structure CacheRow where
  data : Bundle
  timestamp : ℚ
deriving DecidableEq, Repr

/-- The cache table: at most one row per currency (`currency` is UNIQUE). -/
def Cache : Type := String → Option CacheRow

/-- `getCachedData` (lines 208–228): a row is a hit only when its age,
`(now - cacheTime) / 1000` seconds, is below 1; otherwise (stale row or
no row at all) the handler sees `null`, never an error. -/
def getCachedData (cache : Cache) (now : ℚ) (currency : String) :
    Option Bundle :=
  match cache currency with
  | none => none
  | some row => if (now - row.timestamp) / 1000 < 1 then some row.data else none

/-- `setCache` (lines 231–235): `INSERT OR REPLACE` keyed on the UNIQUE
currency column — a wholesale overwrite with a fresh timestamp. -/
def setCache (cache : Cache) (now : ℚ) (currency : String) (data : Bundle) :
    Cache :=
  fun c => if c = currency then some { data := data, timestamp := now } else cache c

/-- The `GET /quotes` handler (lines 248–260): always fetches fresh
quotes; the cache is neither read nor written. -/
def handleQuotes (env : String → ℚ × ℚ) (cache : Cache) (currency : String) :
    Except String (List Quote) × Cache :=
  (fetchQuotes env currency, cache)

/-- The `GET /average` handler (lines 263–283): consult the cache; on a
miss, fetch, compute both statistics, store the bundle, and answer with
its `average` field.  A thrown error (only the registry lookup can
throw) reaches the catch before `setCache` runs. -/
def handleAverage (env : String → ℚ × ℚ) (cache : Cache) (now : ℚ)
    (currency : String) : Except String AveragePair × Cache :=
  match getCachedData cache now currency with
  | some data => (Except.ok data.average, cache)
  | none =>
      match fetchQuotes env currency with
      | Except.error e => (Except.error e, cache)
      | Except.ok quotes =>
          let average := calculateAverage quotes
          let slippage := calculateSlippage quotes average
          (Except.ok average,
           setCache cache now currency
             { quotes := quotes, average := average, slippage := slippage })

/-- The `GET /slippage` handler (lines 286–306): identical to
`/average` except that the `slippage` field is returned. -/
def handleSlippage (env : String → ℚ × ℚ) (cache : Cache) (now : ℚ)
    (currency : String) : Except String (List SlippageEntry) × Cache :=
  match getCachedData cache now currency with
  | some data => (Except.ok data.slippage, cache)
  | none =>
      match fetchQuotes env currency with
      | Except.error e => (Except.error e, cache)
      | Except.ok quotes =>
          let average := calculateAverage quotes
          let slippage := calculateSlippage quotes average
          (Except.ok slippage,
           setCache cache now currency
             { quotes := quotes, average := average, slippage := slippage })

/-! ## Helper lemmas -/

/-- Unfolding the price-summing `reduce` of `calculateAverage`. -/
theorem foldl_price_sum (l : List Quote) (p : ℚ × ℚ) :
    l.foldl (fun acc quote => (acc.1 + quote.buy_price, acc.2 + quote.sell_price)) p
      = (p.1 + (l.map Quote.buy_price).sum, p.2 + (l.map Quote.sell_price).sum) := by
  induction l generalizing p with
  | nil => simp
  | cons q t ih => simp [ih, add_assoc]

/-! ## Claims -/

/-- Claim C1: on every non-empty quote list, `calculateAverage` returns the
arithmetic mean of the `buy_price` values and of the `sell_price` values;
in particular on a single-element list it returns that element's prices. -/
theorem calculateAverage_is_mean (quotes : List Quote) (h : quotes ≠ []) :
    calculateAverage quotes =
      { average_buy_price := JsNum.num ((quotes.map Quote.buy_price).sum / quotes.length),
        average_sell_price := JsNum.num ((quotes.map Quote.sell_price).sum / quotes.length) }
    ∧ ∀ q : Quote, quotes = [q] →
        calculateAverage quotes =
          { average_buy_price := JsNum.num q.buy_price,
            average_sell_price := JsNum.num q.sell_price } := by
  have hlen : (quotes.length : ℚ) ≠ 0 := by
    simpa using fun hc => h (List.length_eq_zero.mp hc)
  constructor
  · simp [calculateAverage, foldl_price_sum, JsNum.div, hlen]
  · rintro q rfl
    simp [calculateAverage, JsNum.div]

/-- Witness for C1 at a concrete two-element list. -/
theorem calculateAverage_is_mean_witness :
    calculateAverage [⟨1, 2, "a"⟩, ⟨3, 4, "b"⟩] =
      { average_buy_price := JsNum.num 2, average_sell_price := JsNum.num 3 } := by
  rw [(calculateAverage_is_mean [⟨1, 2, "a"⟩, ⟨3, 4, "b"⟩] (by simp)).1]
  norm_num

/-- Claim C2 (code side): `calculateAverage` has no emptiness guard; on the
empty list it divides 0 by 0 and returns NaN averages instead of failing
with `EmptyQuoteSet` as the specification demands. -/
theorem calculateAverage_empty_nan :
    calculateAverage [] =
      { average_buy_price := JsNum.nan, average_sell_price := JsNum.nan } := by
  decide

/-- Claim C3 (code side): `calculateSlippage` has no guard against a zero
average component; with a zero average it divides anyway and returns
Infinity-valued slippage entries instead of failing with
`DegenerateAverage` as the specification demands. -/
theorem calculateSlippage_zero_average_divides :
    calculateSlippage [⟨5, 7, "src"⟩]
        { average_buy_price := JsNum.num 0, average_sell_price := JsNum.num 0 } =
      [{ buy_price_slippage := JsNum.inf, sell_price_slippage := JsNum.inf,
         source := "src" }] := by
  norm_num [calculateSlippage, JsNum.sub, JsNum.div, JsNum.mul]

/-- Claim C4: with both average components finite and nonzero,
`calculateSlippage` returns one entry per quote in order, computing
`(price - average) / average * 100` on each side and copying the quote's
source; a quote whose price equals the average gets slippage exactly 0
on that side. -/
theorem calculateSlippage_formula (quotes : List Quote) (ab as : ℚ)
    (hb : ab ≠ 0) (hs : as ≠ 0) :
    calculateSlippage quotes
        { average_buy_price := JsNum.num ab, average_sell_price := JsNum.num as } =
      quotes.map (fun q =>
        { buy_price_slippage := JsNum.num ((q.buy_price - ab) / ab * 100),
          sell_price_slippage := JsNum.num ((q.sell_price - as) / as * 100),
          source := q.source })
    ∧ (calculateSlippage quotes
        { average_buy_price := JsNum.num ab, average_sell_price := JsNum.num as }).length
        = quotes.length
    ∧ (∀ q : Quote, q.buy_price = ab →
        JsNum.num ((q.buy_price - ab) / ab * 100) = JsNum.num 0)
    ∧ (∀ q : Quote, q.sell_price = as →
        JsNum.num ((q.sell_price - as) / as * 100) = JsNum.num 0) := by
  refine ⟨?_, by simp [calculateSlippage], ?_, ?_⟩
  · simp [calculateSlippage, JsNum.sub, JsNum.div, JsNum.mul, hb, hs]
  · intro q hq; rw [hq]; simp
  · intro q hq; rw [hq]; simp

/-- Witness for C4 at a single quote whose buy price equals the buy
average: buy slippage 0, sell slippage (3-4)/4*100 = -25. -/
theorem calculateSlippage_formula_witness :
    calculateSlippage [⟨2, 3, "s"⟩]
        { average_buy_price := JsNum.num 2, average_sell_price := JsNum.num 4 } =
      [{ buy_price_slippage := JsNum.num 0, sell_price_slippage := JsNum.num (-25),
         source := "s" }] := by
  rw [(calculateSlippage_formula [⟨2, 3, "s"⟩] 2 4 (by norm_num) (by norm_num)).1]
  norm_num

/-- Claim C5: for a currency with no entry in `SOURCES`, `fetchQuotes`
always throws the unsupported-currency error, returning no quote list. -/
theorem fetchQuotes_unsupported (env : String → ℚ × ℚ) (currency : String)
    (h : SOURCES currency = none) :
    fetchQuotes env currency =
      Except.error ("Currency " ++ currency ++ " not supported") := by
  simp [fetchQuotes, h]

/-- Witness for C5 at the unregistered currency XYZ. -/
theorem fetchQuotes_unsupported_witness :
    fetchQuotes (fun _ => (1, 2)) "XYZ" =
      Except.error "Currency XYZ not supported" := by
  exact fetchQuotes_unsupported (fun _ => (1, 2)) "XYZ" rfl

/-- Claim C6: for a registered currency, `fetchQuotes` succeeds with
exactly one quote per registered descriptor, in registry order, each
quote's `source` being the corresponding descriptor's URL. -/
theorem fetchQuotes_registered (env : String → ℚ × ℚ) (currency : String)
    (srcs : List SourceDescriptor) (h : SOURCES currency = some srcs) :
    ∃ quotes : List Quote,
      fetchQuotes env currency = Except.ok quotes
      ∧ quotes = srcs.map (fun s =>
          { buy_price := (dispatchScrape env s.name).1,
            sell_price := (dispatchScrape env s.name).2,
            source := s.url })
      ∧ quotes.length = srcs.length
      ∧ ∀ i : ℕ, (quotes[i]?).map Quote.source = (srcs[i]?).map SourceDescriptor.url := by
  refine ⟨srcs.map (fun s =>
    { buy_price := (dispatchScrape env s.name).1,
      sell_price := (dispatchScrape env s.name).2,
      source := s.url }), ?_, rfl, by simp, ?_⟩
  · simp [fetchQuotes, h]
  · intro i
    cases hi : srcs[i]? <;> simp [List.getElem?_map, hi]

/-- Witness for C6 at the registered currency ARS (three descriptors). -/
theorem fetchQuotes_registered_witness :
    ∃ quotes : List Quote,
      fetchQuotes (fun _ => (1, 2)) "ARS" = Except.ok quotes
      ∧ quotes.length = 3 := by
  obtain ⟨quotes, h1, -, h3, -⟩ :=
    fetchQuotes_registered (fun _ => (1, 2)) "ARS" _ rfl
  exact ⟨quotes, h1, by simpa using h3⟩

/-- Claim C7: `getCachedData` returns a hit exactly when a row exists for
the currency and its age is under the one-second freshness window; in
every other case, including a currency never stored, it returns a miss
(`none`), never an error. -/
theorem getCachedData_hit_iff (cache : Cache) (now : ℚ) (currency : String) :
    (∀ b : Bundle, getCachedData cache now currency = some b ↔
        ∃ row : CacheRow, cache currency = some row ∧ row.data = b
          ∧ (now - row.timestamp) / 1000 < 1)
    ∧ (cache currency = none → getCachedData cache now currency = none) := by
  constructor
  · intro b
    cases hrow : cache currency with
    | none => simp [getCachedData, hrow]
    | some row =>
        by_cases hfresh : (now - row.timestamp) / 1000 < 1 <;>
          simp [getCachedData, hrow, hfresh, eq_comm]
  · intro hn
    simp [getCachedData, hn]

/-- Witness for C7: a never-stored currency is a miss. -/
theorem getCachedData_hit_iff_witness :
    getCachedData (fun _ => none) 0 "BRL" = none := by
  exact (getCachedData_hit_iff (fun _ => none) 0 "BRL").2 rfl

/-- Claim C8: `setCache` followed by `getCachedData` for the same currency
within the freshness window returns exactly the stored bundle, and the
put overwrites whatever row previously existed for that currency. -/
theorem setCache_roundtrip (cache : Cache) (now tRead : ℚ) (currency : String)
    (bundle : Bundle) (h : (tRead - now) / 1000 < 1) :
    getCachedData (setCache cache now currency bundle) tRead currency = some bundle
    ∧ setCache cache now currency bundle currency =
        some { data := bundle, timestamp := now } := by
  constructor
  · simp [getCachedData, setCache, h]
  · simp [setCache]

/-- Witness for C8: a put over an existing row for BRL, read back at the
same instant, yields the new bundle. -/
theorem setCache_roundtrip_witness :
    getCachedData
        (setCache
          (fun _ => some { data := { quotes := [], average := ⟨JsNum.nan, JsNum.nan⟩,
                                     slippage := [] },
                           timestamp := 0 })
          5 "BRL"
          { quotes := [⟨1, 2, "s"⟩], average := ⟨JsNum.num 1, JsNum.num 2⟩,
            slippage := [] })
        5 "BRL"
      = some { quotes := [⟨1, 2, "s"⟩], average := ⟨JsNum.num 1, JsNum.num 2⟩,
               slippage := [] } := by
  exact (setCache_roundtrip _ 5 5 "BRL" _ (by norm_num)).1

/-- Claim C9: the quotes view always fetches fresh quotes and neither
reads nor writes the cache; the average and slippage views return the
cached field unchanged on a hit (for any provider environment, hence
without recomputation), and on a miss run the aggregation, compute both
statistics, store the bundle, and return the requested field. -/
theorem handlers_cache_policy (env : String → ℚ × ℚ) (cache : Cache) (now : ℚ)
    (currency : String) :
    (handleQuotes env cache currency = (fetchQuotes env currency, cache))
    ∧ (∀ d : Bundle, getCachedData cache now currency = some d →
        handleAverage env cache now currency = (Except.ok d.average, cache)
        ∧ handleSlippage env cache now currency = (Except.ok d.slippage, cache))
    ∧ (∀ quotes : List Quote,
        getCachedData cache now currency = none →
        fetchQuotes env currency = Except.ok quotes →
        handleAverage env cache now currency =
          (Except.ok (calculateAverage quotes),
           setCache cache now currency
             { quotes := quotes, average := calculateAverage quotes,
               slippage := calculateSlippage quotes (calculateAverage quotes) })
        ∧ handleSlippage env cache now currency =
          (Except.ok (calculateSlippage quotes (calculateAverage quotes)),
           setCache cache now currency
             { quotes := quotes, average := calculateAverage quotes,
               slippage := calculateSlippage quotes (calculateAverage quotes) })) := by
  refine ⟨rfl, ?_, ?_⟩
  · intro d hd
    constructor <;> simp [handleAverage, handleSlippage, hd]
  · intro quotes hmiss hfetch
    constructor <;> simp [handleAverage, handleSlippage, hmiss, hfetch]

/-- Witness for C9: a miss on an empty cache for ARS runs the pipeline
and stores the bundle. -/
theorem handlers_cache_policy_witness :
    handleAverage (fun _ => (1, 2)) (fun _ => none) 0 "ARS" =
      (Except.ok (calculateAverage [⟨1, 2, "https://www.ambito.com/contenidos/dolar.html"⟩,
                                    ⟨1, 2, "https://www.dolarhoy.com"⟩,
                                    ⟨1, 2, "https://www.cronista.com/MercadosOnline/moneda.html?id=ARSB"⟩]),
       setCache (fun _ => none) 0 "ARS"
         { quotes := [⟨1, 2, "https://www.ambito.com/contenidos/dolar.html"⟩,
                      ⟨1, 2, "https://www.dolarhoy.com"⟩,
                      ⟨1, 2, "https://www.cronista.com/MercadosOnline/moneda.html?id=ARSB"⟩],
           average := calculateAverage [⟨1, 2, "https://www.ambito.com/contenidos/dolar.html"⟩,
                                        ⟨1, 2, "https://www.dolarhoy.com"⟩,
                                        ⟨1, 2, "https://www.cronista.com/MercadosOnline/moneda.html?id=ARSB"⟩],
           slippage := calculateSlippage
             [⟨1, 2, "https://www.ambito.com/contenidos/dolar.html"⟩,
              ⟨1, 2, "https://www.dolarhoy.com"⟩,
              ⟨1, 2, "https://www.cronista.com/MercadosOnline/moneda.html?id=ARSB"⟩]
             (calculateAverage [⟨1, 2, "https://www.ambito.com/contenidos/dolar.html"⟩,
                                ⟨1, 2, "https://www.dolarhoy.com"⟩,
                                ⟨1, 2, "https://www.cronista.com/MercadosOnline/moneda.html?id=ARSB"⟩]) }) := by
  exact ((handlers_cache_policy (fun _ => (1, 2)) (fun _ => none) 0 "ARS").2.2
    _ rfl rfl).1

/-- Claim C10: whenever the average or slippage handler answers with an
error, the cache it leaves behind is exactly the cache it started from —
`setCache` runs only after a successful aggregation and both statistics
computations. -/
theorem handlers_error_preserves_cache (env : String → ℚ × ℚ) (cache : Cache)
    (now : ℚ) (currency : String) :
    (∀ e : String, (handleAverage env cache now currency).1 = Except.error e →
        (handleAverage env cache now currency).2 = cache)
    ∧ (∀ e : String, (handleSlippage env cache now currency).1 = Except.error e →
        (handleSlippage env cache now currency).2 = cache) := by
  constructor <;> intro e he
  · cases hd : getCachedData cache now currency with
    | some d => simp [handleAverage, hd]
    | none =>
        cases hf : fetchQuotes env currency with
        | error s => simp [handleAverage, hd, hf]
        | ok quotes => simp [handleAverage, hd, hf] at he
  · cases hd : getCachedData cache now currency with
    | some d => simp [handleSlippage, hd]
    | none =>
        cases hf : fetchQuotes env currency with
        | error s => simp [handleSlippage, hd, hf]
        | ok quotes => simp [handleSlippage, hd, hf] at he

/-- Witness for C10: the unsupported currency XYZ errors and leaves an
empty cache empty. -/
theorem handlers_error_preserves_cache_witness :
    (handleAverage (fun _ => (1, 2)) (fun _ => none) 0 "XYZ").2 =
      (fun _ => none : Cache) := by
  exact (handlers_error_preserves_cache (fun _ => (1, 2)) (fun _ => none) 0 "XYZ").1
    "Currency XYZ not supported" rfl
